import Mathlib

/-!
Shallow embedding of the GPU task queueing / auto-scaling core of the
`backend-cpu-server` repository, covering:

* `src/app/services/gpu_queue_manager.py` (`GPUQueueManager`, `TaskType`,
  `TaskStatus`)
* `src/app/services/auto_scaler.py` (`AutoScaler`, `CostTracker`)
* `src/services/runpod_manager.py` (`RunPodManager`)
* `src/app/services/gpu_communication.py` (`GPUCommunicationService`)
* `src/app/services/background_tasks.py` (`queue_gpu_task`)

Python strings stay `String`, Python floats used only additively and for
ordering become `ℚ`, Redis lists become `List` (with `lpush` prepending and
`lrange 0 -1` returning the list head-first, as Redis does), `datetime`
readings are supplied by the environment (as a rational instant for
arithmetic, and as their rendered string where the code interpolates them
into identifiers).  Effectful provider calls are made observable through an
explicit action trace: an `Action.start`/`Action.stop` is recorded exactly
when a pod handle is actually created/cleared at the provider.
-/

namespace Borderflo

/-- `TaskType` enum from `gpu_queue_manager.py`. -/
inductive TaskType where
  | video_generation
  | evaluation
deriving DecidableEq, Repr

/-- `.value` of the Python enum member. -/
def TaskType.value : TaskType → String
  | .video_generation => "video_generation"
  | .evaluation => "evaluation"

/-- Python truthiness of an `Optional[str]`: `None` and `""` are falsy. -/
def pyTruthyStr : Option String → Bool
  | none => false
  | some s => decide (s ≠ "")

/-- `CostTracker` state from `auto_scaler.py` (`__init__` sets
`daily_limit = 50.00`, `monthly_limit = 500.00`, both running costs `0.0`). -/
structure CostTracker where
  daily_limit : ℚ
  monthly_limit : ℚ
  current_daily_cost : ℚ
  current_monthly_cost : ℚ
deriving DecidableEq, Repr

/-- The literal `estimated_hourly_cost = 0.27` in
`CostTracker.can_start_instance`. -/
def estimated_hourly_cost : ℚ := 27 / 100

/-- `CostTracker.__init__`. -/
def CostTracker.init : CostTracker :=
  { daily_limit := 50, monthly_limit := 500
    current_daily_cost := 0, current_monthly_cost := 0 }

/-- `CostTracker.can_start_instance` from `auto_scaler.py`. -/
def CostTracker.can_start_instance (c : CostTracker) : Bool :=
  if c.current_daily_cost + estimated_hourly_cost > c.daily_limit then
    false
  else if c.current_monthly_cost + estimated_hourly_cost > c.monthly_limit then
    false
  else
    true

/-- `CostTracker.approaching_limit` from `auto_scaler.py` (80% threshold). -/
def CostTracker.approaching_limit (c : CostTracker) : Bool :=
  decide (c.current_daily_cost > c.daily_limit * (8 / 10)) ||
    decide (c.current_monthly_cost > c.monthly_limit * (8 / 10))

/-- `CostTracker.limit_exceeded` from `auto_scaler.py`. -/
def CostTracker.limit_exceeded (c : CostTracker) : Bool :=
  decide (c.current_daily_cost > c.daily_limit) ||
    decide (c.current_monthly_cost > c.monthly_limit)

/-- Observable provider effects: an action is recorded exactly when a pod
handle is actually created (a genuine provider start) or an existing handle
is cleared (a genuine provider stop); the idempotent short-circuit branches
of `start_gpu_server`/`stop_gpu_server` record nothing. -/
inductive Action where
  | start (t : TaskType) (pod_id : String)
  | stop (t : TaskType) (pod_id : String)
deriving DecidableEq, Repr

/-- `RunPodManager` state from `runpod_manager.py` (`__init__` sets
`video_pod_id = None`, `eval_pod_id = None`). -/
structure RunPodManager where
  video_pod_id : Option String
  eval_pod_id : Option String
deriving DecidableEq, Repr

/-- `RunPodManager.__init__` pod-tracking state. -/
def RunPodManager.init : RunPodManager :=
  { video_pod_id := none, eval_pod_id := none }

/-- The pod handle the manager holds for a task class. -/
def RunPodManager.podOf (m : RunPodManager) : TaskType → Option String
  | .video_generation => m.video_pod_id
  | .evaluation => m.eval_pod_id

/-- The pod id `f"pod_{task_type.value}_{datetime.now().timestamp()}"`
built in `start_gpu_server`; `ts` is the rendered clock reading. -/
def mkPodId (t : TaskType) (ts : String) : String :=
  "pod_" ++ t.value ++ "_" ++ ts

/-- `RunPodManager.start_gpu_server`: returns the updated manager, the
returned `Optional[str]`, and the provider effects. -/
def RunPodManager.start_gpu_server (m : RunPodManager) (t : TaskType)
    (ts : String) : RunPodManager × Option String × List Action :=
  if pyTruthyStr (m.podOf t) then
    (m, m.podOf t, [])
  else
    let pod_id := mkPodId t ts
    match t with
    | .video_generation =>
        ({ m with video_pod_id := some pod_id }, some pod_id,
          [Action.start t pod_id])
    | .evaluation =>
        ({ m with eval_pod_id := some pod_id }, some pod_id,
          [Action.start t pod_id])

/-- `RunPodManager.stop_gpu_server`: returns the updated manager, the
boolean result, and the provider effects. -/
def RunPodManager.stop_gpu_server (m : RunPodManager) (t : TaskType) :
    RunPodManager × Bool × List Action :=
  if pyTruthyStr (m.podOf t) then
    match t with
    | .video_generation =>
        ({ m with video_pod_id := none }, true,
          [Action.stop t (m.video_pod_id.getD "")])
    | .evaluation =>
        ({ m with eval_pod_id := none }, true,
          [Action.stop t (m.eval_pod_id.getD "")])
  else
    (m, true, [])

/-- `RunPodManager.get_pod_status` (simplified in the source: `"running"`
whenever the passed pod id is truthy). -/
def get_pod_status (pod_id : String) : String :=
  if pod_id ≠ "" then "running" else "stopped"

/-- `RunPodManager.get_video_server_status`. -/
def RunPodManager.get_video_server_status (m : RunPodManager) : String :=
  if pyTruthyStr m.video_pod_id then
    get_pod_status (m.video_pod_id.getD "")
  else
    "stopped"

/-- `RunPodManager.get_eval_server_status`. -/
def RunPodManager.get_eval_server_status (m : RunPodManager) : String :=
  if pyTruthyStr m.eval_pod_id then
    get_pod_status (m.eval_pod_id.getD "")
  else
    "stopped"

/-- The JSON task dictionary pushed by `queue_video_generation` /
`queue_evaluation` in `gpu_queue_manager.py`.  `question_id` is present only
for evaluation tasks; `payload_hex` is the hex-encoded binary payload
(`audio_data` / `video_data`); `created_at` is the interpolated
`datetime.now().isoformat()` string. -/
structure TaskData where
  task_id : String
  ttype : String
  session_id : String
  question_id : Option String
  payload_hex : String
  created_at : String
  status : String
  priority : String
deriving DecidableEq, Repr

/-- A completed-task record stored by `mark_task_completed`
(`result` kept as its opaque JSON rendering). -/
structure CompletedRecord where
  task_id : String
  status : String
  result : String
  completed_at : String
deriving DecidableEq, Repr

/-- The shared Redis store: the two pending lists (head = most recently
`lpush`ed element, the order `lrange key 0 -1` reports) and the keyed
completed records, each with its absolute expiry instant (`setex` key
time-to-live). -/
structure RedisState where
  video_generation_queue : List TaskData
  evaluation_queue : List TaskData
  completed : List (String × CompletedRecord × ℚ)
deriving DecidableEq, Repr

/-- An empty Redis store. -/
def RedisState.empty : RedisState :=
  { video_generation_queue := [], evaluation_queue := [], completed := [] }

/-- `redis.setex key ttl value` at instant `now`: the record becomes
invisible once `now + ttl` is reached; a previous record under the same key
is replaced. -/
def RedisState.setex (r : RedisState) (now : ℚ) (key : String) (ttl : ℚ)
    (rec : CompletedRecord) : RedisState :=
  { r with completed :=
      (key, rec, now + ttl) :: r.completed.filter (fun e => e.1 ≠ key) }

/-- `redis.get key` at instant `now`: a stored record is returned only
while its expiry has not been reached. -/
def RedisState.get (r : RedisState) (now : ℚ) (key : String) :
    Option CompletedRecord :=
  (r.completed.find? (fun e => e.1 = key ∧ now < e.2.2)).map (fun e => e.2.1)

/-- `GPUQueueManager` state from `gpu_queue_manager.py` (`__init__` sets
`scaling_enabled = True` and builds its own `RunPodManager`). -/
structure GPUQueueManager where
  redis : RedisState
  runpod : RunPodManager
  scaling_enabled : Bool
deriving DecidableEq, Repr

/-- `GPUQueueManager.__init__` over an existing Redis store. -/
def GPUQueueManager.init (redis : RedisState) : GPUQueueManager :=
  { redis := redis, runpod := RunPodManager.init, scaling_enabled := true }

/-- `GPUQueueManager.check_scaling_needs`: scale up when the class's queue
length reaches the class threshold (video 1, evaluation 2) and the server
is reported `"stopped"`.  No cost check happens on this path.  `ts` is the
clock rendering used for a fresh pod id. -/
def GPUQueueManager.check_scaling_needs (qm : GPUQueueManager)
    (task_type : TaskType) (ts : String) : GPUQueueManager × List Action :=
  if qm.scaling_enabled = false then
    (qm, [])
  else
    let queue_length :=
      match task_type with
      | .video_generation => qm.redis.video_generation_queue.length
      | .evaluation => qm.redis.evaluation_queue.length
    let server_status :=
      match task_type with
      | .video_generation => qm.runpod.get_video_server_status
      | .evaluation => qm.runpod.get_eval_server_status
    let threshold : Nat :=
      match task_type with
      | .video_generation => 1
      | .evaluation => 2
    if queue_length ≥ threshold ∧ server_status = "stopped" then
      let r := qm.runpod.start_gpu_server task_type ts
      ({ qm with runpod := r.1 }, r.2.2)
    else
      (qm, [])

/-- The task id `f"video_{session_id}_{datetime.now().timestamp()}"`. -/
def videoTaskId (session_id ts : String) : String :=
  "video_" ++ session_id ++ "_" ++ ts

/-- The task id
`f"eval_{session_id}_{question_id}_{datetime.now().timestamp()}"`. -/
def evalTaskId (session_id question_id ts : String) : String :=
  "eval_" ++ session_id ++ "_" ++ question_id ++ "_" ++ ts

/-- `GPUQueueManager.queue_video_generation`: builds the task dictionary,
`lpush`es it onto `video_generation_queue`, triggers the scaling check and
returns the task id.  `ts` renders `datetime.now().timestamp()`, `iso`
renders `datetime.now().isoformat()`, `podTs` is the clock rendering a
triggered start would use. -/
def GPUQueueManager.queue_video_generation (qm : GPUQueueManager)
    (audio_hex session_id ts iso podTs : String) :
    GPUQueueManager × String × List Action :=
  let task_id := videoTaskId session_id ts
  let task : TaskData :=
    { task_id := task_id, ttype := "video_generation"
      session_id := session_id, question_id := none
      payload_hex := audio_hex, created_at := iso
      status := "pending", priority := "high" }
  let qm' := { qm with redis :=
    { qm.redis with video_generation_queue :=
        task :: qm.redis.video_generation_queue } }
  let r := qm'.check_scaling_needs .video_generation podTs
  (r.1, task_id, r.2)

/-- `GPUQueueManager.queue_evaluation`, analogously. -/
def GPUQueueManager.queue_evaluation (qm : GPUQueueManager)
    (video_hex session_id question_id ts iso podTs : String) :
    GPUQueueManager × String × List Action :=
  let task_id := evalTaskId session_id question_id ts
  let task : TaskData :=
    { task_id := task_id, ttype := "evaluation"
      session_id := session_id, question_id := some question_id
      payload_hex := video_hex, created_at := iso
      status := "pending", priority := "medium" }
  let qm' := { qm with redis :=
    { qm.redis with evaluation_queue :=
        task :: qm.redis.evaluation_queue } }
  let r := qm'.check_scaling_needs .evaluation podTs
  (r.1, task_id, r.2)

/-- The three shapes `GPUQueueManager.get_task_status` can return: the
completed record, the pending task dictionary, or
`{"error": "Task not found"}`. -/
inductive TaskStatusResult where
  | completedRec (r : CompletedRecord)
  | pendingRec (t : TaskData)
  | notFound
deriving DecidableEq, Repr

/-- `GPUQueueManager.get_task_status` at instant `now`: the completed store
is consulted first, then the video queue, then the evaluation queue. -/
def GPUQueueManager.get_task_status (redis : RedisState) (now : ℚ)
    (task_id : String) : TaskStatusResult :=
  match redis.get now ("completed_" ++ task_id) with
  | some r => .completedRec r
  | none =>
      match (redis.video_generation_queue ++
          redis.evaluation_queue).find? (fun td => td.task_id = task_id) with
      | some td => .pendingRec td
      | none => .notFound

/-- `GPUQueueManager.mark_task_completed` at instant `now`: stores the
completed record under `completed_{task_id}` with a 86400-second expiry.
The pending lists are not touched. -/
def GPUQueueManager.mark_task_completed (redis : RedisState) (now : ℚ)
    (task_id : String) (result : String) (iso : String) : RedisState :=
  redis.setex now ("completed_" ++ task_id) 86400
    { task_id := task_id, status := "completed"
      result := result, completed_at := iso }

/-- `AutoScaler` state from `auto_scaler.py` (`__init__` sets the
thresholds to 1 and 2, `idle_timeout = 300`, both activity stamps to
`None`, `enabled = True`, and builds its own cost tracker and managers;
the Redis store it reads is the shared one). -/
structure AutoScaler where
  redis : RedisState
  runpod : RunPodManager
  enabled : Bool
  cost_tracker : CostTracker
  video_scale_up_threshold : Nat
  eval_scale_up_threshold : Nat
  idle_timeout : ℚ
  last_video_activity : Option ℚ
  last_eval_activity : Option ℚ
deriving DecidableEq, Repr

/-- `AutoScaler.__init__` over an existing Redis store. -/
def AutoScaler.init (redis : RedisState) : AutoScaler :=
  { redis := redis, runpod := RunPodManager.init, enabled := true
    cost_tracker := CostTracker.init
    video_scale_up_threshold := 1, eval_scale_up_threshold := 2
    idle_timeout := 300
    last_video_activity := none, last_eval_activity := none }

/-- `AutoScaler.check_video_scaling` at instant `now`; `podTs` is the clock
rendering a start would use.  Scale up only when the queue is long enough,
the server reports `"stopped"`, and `can_start_instance` allows it; any
tick with a non-empty queue refreshes `last_video_activity`. -/
def AutoScaler.check_video_scaling (a : AutoScaler) (now : ℚ)
    (podTs : String) : AutoScaler × List Action :=
  let queue_length := a.redis.video_generation_queue.length
  let server_status := a.runpod.get_video_server_status
  let step1 :=
    if queue_length ≥ a.video_scale_up_threshold ∧
        server_status = "stopped" then
      if a.cost_tracker.can_start_instance then
        let r := a.runpod.start_gpu_server .video_generation podTs
        ({ a with runpod := r.1, last_video_activity := some now }, r.2.2)
      else
        (a, [])
    else
      (a, [])
  if queue_length > 0 then
    ({ step1.1 with last_video_activity := some now }, step1.2)
  else
    step1

/-- `AutoScaler.check_eval_scaling`, analogously. -/
def AutoScaler.check_eval_scaling (a : AutoScaler) (now : ℚ)
    (podTs : String) : AutoScaler × List Action :=
  let queue_length := a.redis.evaluation_queue.length
  let server_status := a.runpod.get_eval_server_status
  let step1 :=
    if queue_length ≥ a.eval_scale_up_threshold ∧
        server_status = "stopped" then
      if a.cost_tracker.can_start_instance then
        let r := a.runpod.start_gpu_server .evaluation podTs
        ({ a with runpod := r.1, last_eval_activity := some now }, r.2.2)
      else
        (a, [])
    else
      (a, [])
  if queue_length > 0 then
    ({ step1.1 with last_eval_activity := some now }, step1.2)
  else
    step1

/-- `AutoScaler.check_scale_down` at instant `now`: each class with a set
activity stamp older than `idle_timeout` and an empty pending queue gets a
stop and its stamp cleared. -/
def AutoScaler.check_scale_down (a : AutoScaler) (now : ℚ) :
    AutoScaler × List Action :=
  let step1 :=
    match a.last_video_activity with
    | some t0 =>
        if now - t0 > a.idle_timeout then
          if a.redis.video_generation_queue.length = 0 then
            let r := a.runpod.stop_gpu_server .video_generation
            ({ a with runpod := r.1, last_video_activity := none }, r.2.2)
          else
            (a, [])
        else
          (a, [])
    | none => (a, [])
  let a1 := step1.1
  let step2 :=
    match a1.last_eval_activity with
    | some t0 =>
        if now - t0 > a1.idle_timeout then
          if a1.redis.evaluation_queue.length = 0 then
            let r := a1.runpod.stop_gpu_server .evaluation
            ({ a1 with runpod := r.1, last_eval_activity := none }, r.2.2)
          else
            (a1, [])
        else
          (a1, [])
    | none => (a1, [])
  (step2.1, step1.2 ++ step2.2)

/-- `AutoScaler.emergency_shutdown`: stop both classes and disable the
loop. -/
def AutoScaler.emergency_shutdown (a : AutoScaler) :
    AutoScaler × List Action :=
  let r1 := a.runpod.stop_gpu_server .video_generation
  let r2 := r1.1.stop_gpu_server .evaluation
  ({ a with runpod := r2.1, enabled := false }, r1.2.2 ++ r2.2.2)

/-- `AutoScaler.update_cost_tracking`: `update_usage` is a stub,
`approaching_limit` only prints a warning; `limit_exceeded` triggers the
emergency shutdown. -/
def AutoScaler.update_cost_tracking (a : AutoScaler) :
    AutoScaler × List Action :=
  if a.cost_tracker.limit_exceeded then
    a.emergency_shutdown
  else
    (a, [])

/-- One pass of the `monitor_and_scale` loop body. -/
def AutoScaler.tick (a : AutoScaler) (now : ℚ) (podTsV podTsE : String) :
    AutoScaler × List Action :=
  let r1 := a.check_video_scaling now podTsV
  let r2 := r1.1.check_eval_scaling now podTsE
  let r3 := r2.1.check_scale_down now
  let r4 := r3.1.update_cost_tracking
  (r4.1, r1.2 ++ r2.2 ++ r3.2 ++ r4.2)

/-- Per-tick environment: the clock reading, the clock renderings used for
fresh pod ids, and the Redis contents the tick reads (request handlers and
GPU workers mutate the shared store between ticks). -/
structure TickEnv where
  now : ℚ
  podTsVideo : String
  podTsEval : String
  redis : RedisState

/-- `AutoScaler.monitor_and_scale`, fuel-bounded: while `enabled`, run one
tick per environment entry and collect the provider actions. -/
def AutoScaler.monitor_and_scale : Nat → AutoScaler → (Nat → TickEnv) →
    List Action
  | 0, _, _ => []
  | Nat.succ n, a, env =>
      if a.enabled = true then
        let e := env 0
        let r := AutoScaler.tick { a with redis := e.redis } e.now
          e.podTsVideo e.podTsEval
        r.2 ++ AutoScaler.monitor_and_scale n r.1 (fun i => env (i + 1))
      else
        []

/-- Whether a provider action is an instance start. -/
def Action.isStart : Action → Bool
  | .start _ _ => true
  | .stop _ _ => false

/-- The stops a trace records for one task class. -/
def stopsFor (t : TaskType) (tr : List Action) : Nat :=
  (tr.filter (fun x =>
    match x with
    | .stop t' _ => t' = t
    | .start _ _ => false)).length

/-- C1 counterexample state: the cost tracker is far over its daily limit
(`current_daily_cost = 100` against `daily_limit = 50`). -/
def costCexC1 : CostTracker :=
  { daily_limit := 50, monthly_limit := 500
    current_daily_cost := 100, current_monthly_cost := 100 }

/-- C8 counterexample state: the video activity stamp is set and stale,
the video queue is empty, but no video instance is held. -/
def scalerCexC8 : AutoScaler :=
  { AutoScaler.init RedisState.empty with last_video_activity := some 0 }

/-- C8 amended witness state, part 1: a held video pod with a stale
activity stamp and empty queue. -/
def scalerWitC8 : AutoScaler :=
  { AutoScaler.init RedisState.empty with
    last_video_activity := some 0
    runpod := { video_pod_id := some "pod_v", eval_pod_id := none } }

/-- C8 amended witness state, part 2: one pending video task. -/
def scalerWitC8b : AutoScaler :=
  AutoScaler.init
    { RedisState.empty with video_generation_queue :=
        [{ task_id := "video_s_1", ttype := "video_generation"
           session_id := "s", question_id := none, payload_hex := ""
           created_at := "t", status := "pending", priority := "high" }] }

/-- The pending video task built by `queue_video_generation`. -/
def mkVideoTask (audio s ts iso : String) : TaskData :=
  { task_id := videoTaskId s ts, ttype := "video_generation"
    session_id := s, question_id := none, payload_hex := audio
    created_at := iso, status := "pending", priority := "high" }

/-- The pending evaluation task built by `queue_evaluation`. -/
def mkEvalTask (video s q ts iso : String) : TaskData :=
  { task_id := evalTaskId s q ts, ttype := "evaluation"
    session_id := s, question_id := some q, payload_hex := video
    created_at := iso, status := "pending", priority := "medium" }

/-- The first task of the C3 counterexample (enqueued first, earlier
`created_at`). -/
def taskA3 : TaskData := mkVideoTask "aa" "s1" "1" "2026-01-01T00:00:00"

/-- The second task of the C3 counterexample (enqueued later, later
`created_at`). -/
def taskB3 : TaskData := mkVideoTask "bb" "s2" "2" "2026-01-01T00:00:01"

/-- The Redis store after one video enqueue (C5 counterexample). -/
def redisCex5 : RedisState :=
  ((GPUQueueManager.init RedisState.empty).queue_video_generation "aa" "s1"
    "1" "2026-01-01T00:00:00" "p1").1.redis

/-- That store after marking the enqueued task completed at instant 0
(C5 counterexample). -/
def redisCex5' : RedisState :=
  GPUQueueManager.mark_task_completed redisCex5 0 "video_s1_1" "resjson"
    "2026-01-01T01:00:00"

/-- The method names the `GPUQueueManager` class body defines in
`gpu_queue_manager.py`. -/
def gpuQueueManagerMethods : List String :=
  ["__init__", "queue_video_generation", "queue_evaluation",
    "check_scaling_needs", "get_task_status", "mark_task_completed",
    "process_queue"]

/-- The Python errors the enqueue entry point can raise. -/
inductive PyError where
  | attributeError (msg : String)
  | runtimeError (msg : String)
deriving DecidableEq, Repr

/-- Python attribute lookup on an object with the given method table. -/
def pyGetAttr (methods : List String) (name : String) :
    Except PyError String :=
  if name ∈ methods then
    .ok name
  else
    .error (.attributeError
      ("GPUQueueManager object has no attribute " ++ name))

/-- `queue_gpu_task` from `background_tasks.py`: raises `RuntimeError`
when the module-level queue manager is unset; otherwise it calls
`queue_manager.add_task(...)` — an attribute the `GPUQueueManager` class
never defines, so attribute lookup raises before anything is enqueued.
The `.ok` branch is dead code: no `add_task` body exists to model. -/
def queue_gpu_task (initialized : Bool) (task_type : String)
    (user_id : Nat) (input_file_path : String)
    (parameters : List (String × String)) (priority : Nat) :
    Except PyError String :=
  if initialized = false then
    .error (.runtimeError "GPU queue manager not initialized")
  else
    match pyGetAttr gpuQueueManagerMethods "add_task" with
    | .error e => .error e
    | .ok _ =>
        .ok (task_type ++ "_" ++ input_file_path ++ "_" ++
          toString user_id ++ "_" ++ toString priority ++ "_" ++
          toString parameters.length)

/-- The observable outcome of one HTTP dispatch attempt: a 200 response
with a parsed payload, a non-200 status with its body text, or a raised
exception (network, timeout, or file I/O) with its message. -/
inductive HttpOutcome where
  | ok (payload : String)
  | errStatus (status : Nat) (body : String)
  | exc (msg : String)
deriving DecidableEq, Repr

/-- The result dictionary the dispatch methods of
`GPUCommunicationService` return. -/
structure GpuCallResult where
  success : Bool
  result : Option String
  error : Option String
  details : Option String
deriving DecidableEq, Repr

/-- `GPUCommunicationService.generate_video`: the entire body (file reads,
multipart build, request) runs inside one `try`; a 200 response yields
`{"success": True, "result": ...}`, a non-200 yields a structured error
with the status and body, and any exception is caught and converted to
`{"success": False, "error": str(e)}`.  The Lean function is total: no
exception escapes. -/
def generate_video : HttpOutcome → GpuCallResult
  | .ok payload =>
      { success := true, result := some payload
        error := none, details := none }
  | .errStatus status body =>
      { success := false, result := none
        error := some ("Video service error: " ++ toString status)
        details := some body }
  | .exc msg =>
      { success := false, result := none
        error := some msg, details := none }

/-- `GPUCommunicationService.evaluate_interview`, with the same
try/except structure and its own error prefix. -/
def evaluate_interview : HttpOutcome → GpuCallResult
  | .ok payload =>
      { success := true, result := some payload
        error := none, details := none }
  | .errStatus status body =>
      { success := false, result := none
        error := some ("Evaluation service error: " ++ toString status)
        details := some body }
  | .exc msg =>
      { success := false, result := none
        error := some msg, details := none }

theorem pyTruthyStr_eq_true {o : Option String} :
    pyTruthyStr o = true ↔ ∃ s, o = some s ∧ s ≠ "" := by
  cases o <;> simp [pyTruthyStr]

theorem mkPodId_ne_empty (t : TaskType) (ts : String) : mkPodId t ts ≠ "" := by
  intro h
  have hd := congrArg String.data h
  simp only [mkPodId, String.data_append] at hd
  cases t <;> simp [TaskType.value] at hd

theorem podOf_start_truthy (m : RunPodManager) (t : TaskType) (ts : String) :
    pyTruthyStr ((m.start_gpu_server t ts).1.podOf t) = true := by
  by_cases h : pyTruthyStr (m.podOf t) = true
  · unfold RunPodManager.start_gpu_server
    rw [if_pos h]
    exact h
  · unfold RunPodManager.start_gpu_server
    rw [if_neg h]
    cases t <;> simp [RunPodManager.podOf, pyTruthyStr, mkPodId_ne_empty]

theorem start_gpu_server_held (m : RunPodManager) (t : TaskType) (ts : String)
    (h : pyTruthyStr (m.podOf t) = true) :
    m.start_gpu_server t ts = (m, m.podOf t, []) := by
  unfold RunPodManager.start_gpu_server
  rw [if_pos h]

theorem start_returned_id_eq_podOf (m : RunPodManager) (t : TaskType)
    (ts : String) :
    (m.start_gpu_server t ts).2.1 = (m.start_gpu_server t ts).1.podOf t := by
  by_cases h : pyTruthyStr (m.podOf t) = true
  · rw [start_gpu_server_held m t ts h]
  · unfold RunPodManager.start_gpu_server
    rw [if_neg h]
    cases t <;> simp [RunPodManager.podOf]

/-- C9: provisioning is idempotent per task class — a second
`start_gpu_server` without an intervening stop returns the same pod id,
leaves the manager unchanged and performs no provider start; stopping a
class that holds no pod succeeds trivially without touching anything; and
the reported server status is `"stopped"` exactly when no pod id is held
for that class. -/
theorem provisioning_idempotent (m : RunPodManager) (t : TaskType)
    (ts ts' : String) :
    (((m.start_gpu_server t ts).1.start_gpu_server t ts').2.1 =
        (m.start_gpu_server t ts).2.1 ∧
      ((m.start_gpu_server t ts).1.start_gpu_server t ts').1 =
        (m.start_gpu_server t ts).1 ∧
      ((m.start_gpu_server t ts).1.start_gpu_server t ts').2.2 = []) ∧
    (pyTruthyStr (m.podOf t) = false →
      m.stop_gpu_server t = (m, true, [])) ∧
    (m.get_video_server_status = "stopped" ↔
      pyTruthyStr m.video_pod_id = false) ∧
    (m.get_eval_server_status = "stopped" ↔
      pyTruthyStr m.eval_pod_id = false) := by
  refine ⟨?_, ?_, ?_, ?_⟩
  · rw [start_gpu_server_held _ t ts' (podOf_start_truthy m t ts)]
    exact ⟨(start_returned_id_eq_podOf m t ts).symm, rfl, rfl⟩
  · intro h
    unfold RunPodManager.stop_gpu_server
    rw [if_neg (by simp [h])]
  · unfold RunPodManager.get_video_server_status
    by_cases h : pyTruthyStr m.video_pod_id = true
    · rw [if_pos h]
      obtain ⟨s, hs, hne⟩ := pyTruthyStr_eq_true.mp h
      simp [hs, get_pod_status, hne, h, pyTruthyStr]
    · rw [if_neg h]
      simp [Bool.eq_false_iff, h]
  · unfold RunPodManager.get_eval_server_status
    by_cases h : pyTruthyStr m.eval_pod_id = true
    · rw [if_pos h]
      obtain ⟨s, hs, hne⟩ := pyTruthyStr_eq_true.mp h
      simp [hs, get_pod_status, hne, h, pyTruthyStr]
    · rw [if_neg h]
      simp [Bool.eq_false_iff, h]

/-- Witness for C9: at the freshly initialised manager no video pod is
held, and stopping the video class is the trivial success. -/
theorem provisioning_idempotent_witness :
    pyTruthyStr (RunPodManager.init.podOf TaskType.video_generation) =
        false ∧
      RunPodManager.init.stop_gpu_server TaskType.video_generation =
        (RunPodManager.init, true, []) :=
  ⟨rfl,
    (provisioning_idempotent RunPodManager.init TaskType.video_generation
        "1" "2").2.1 rfl⟩

theorem can_start_false_of_exceed (c : CostTracker)
    (h : c.current_daily_cost + estimated_hourly_cost > c.daily_limit ∨
      c.current_monthly_cost + estimated_hourly_cost > c.monthly_limit) :
    c.can_start_instance = false := by
  unfold CostTracker.can_start_instance
  rcases h with h | h
  · rw [if_pos h]
  · by_cases h1 : c.current_daily_cost + estimated_hourly_cost > c.daily_limit
    · rw [if_pos h1]
    · rw [if_neg h1, if_pos h]

theorem can_start_false_of_limit_exceeded (c : CostTracker)
    (h : c.limit_exceeded = true) : c.can_start_instance = false := by
  apply can_start_false_of_exceed
  unfold CostTracker.limit_exceeded at h
  simp only [Bool.or_eq_true, decide_eq_true_eq] at h
  have hpos : (0 : ℚ) < estimated_hourly_cost := by
    norm_num [estimated_hourly_cost]
  rcases h with h | h
  · left; linarith
  · right; linarith

theorem stop_no_start (m : RunPodManager) (t : TaskType) :
    ∀ x ∈ (m.stop_gpu_server t).2.2, x.isStart = false := by
  cases t <;> unfold RunPodManager.stop_gpu_server <;> split_ifs <;>
    simp [Action.isStart]

theorem stop_podOf_falsy (m : RunPodManager) (t : TaskType) :
    pyTruthyStr ((m.stop_gpu_server t).1.podOf t) = false := by
  by_cases h : pyTruthyStr (m.podOf t) = true
  · unfold RunPodManager.stop_gpu_server
    rw [if_pos h]
    cases t <;> simp [RunPodManager.podOf, pyTruthyStr]
  · unfold RunPodManager.stop_gpu_server
    rw [if_neg h]
    simpa using h

theorem stop_other_pod_video (m : RunPodManager) :
    (m.stop_gpu_server .evaluation).1.video_pod_id = m.video_pod_id := by
  unfold RunPodManager.stop_gpu_server
  split_ifs <;> rfl

theorem cvs_frame (a : AutoScaler) (now : ℚ) (ts : String) :
    (a.check_video_scaling now ts).1.cost_tracker = a.cost_tracker ∧
      (a.check_video_scaling now ts).1.enabled = a.enabled ∧
      (a.check_video_scaling now ts).1.redis = a.redis := by
  unfold AutoScaler.check_video_scaling
  dsimp only
  split_ifs <;> simp

theorem ces_frame (a : AutoScaler) (now : ℚ) (ts : String) :
    (a.check_eval_scaling now ts).1.cost_tracker = a.cost_tracker ∧
      (a.check_eval_scaling now ts).1.enabled = a.enabled ∧
      (a.check_eval_scaling now ts).1.redis = a.redis := by
  unfold AutoScaler.check_eval_scaling
  dsimp only
  split_ifs <;> simp

theorem csd_frame (a : AutoScaler) (now : ℚ) :
    (a.check_scale_down now).1.cost_tracker = a.cost_tracker ∧
      (a.check_scale_down now).1.enabled = a.enabled := by
  obtain ⟨rd, rp, en, ct, vt, et, it, lva, lea⟩ := a
  simp only [AutoScaler.check_scale_down]
  repeat' split
  all_goals simp

theorem cvs_no_start (a : AutoScaler) (now : ℚ) (ts : String)
    (h : a.cost_tracker.can_start_instance = false) :
    (a.check_video_scaling now ts).2 = [] := by
  unfold AutoScaler.check_video_scaling
  dsimp only
  split_ifs <;> simp_all

theorem ces_no_start (a : AutoScaler) (now : ℚ) (ts : String)
    (h : a.cost_tracker.can_start_instance = false) :
    (a.check_eval_scaling now ts).2 = [] := by
  unfold AutoScaler.check_eval_scaling
  dsimp only
  split_ifs <;> simp_all

theorem csd_no_start (a : AutoScaler) (now : ℚ) :
    ∀ x ∈ (a.check_scale_down now).2, x.isStart = false := by
  obtain ⟨rd, rp, en, ct, vt, et, it, lva, lea⟩ := a
  intro x hx
  revert hx
  simp only [AutoScaler.check_scale_down]
  repeat' split
  all_goals intro hx
  all_goals
    rw [List.mem_append] at hx
    rcases hx with hx | hx <;>
      first
        | exact stop_no_start _ _ _ hx
        | simp at hx

theorem emergency_no_start (a : AutoScaler) :
    ∀ x ∈ (a.emergency_shutdown).2, x.isStart = false := by
  unfold AutoScaler.emergency_shutdown
  dsimp only
  intro x hx
  rw [List.mem_append] at hx
  rcases hx with hx | hx
  · exact stop_no_start _ _ _ hx
  · exact stop_no_start _ _ _ hx

theorem uct_no_start (a : AutoScaler) :
    ∀ x ∈ (a.update_cost_tracking).2, x.isStart = false := by
  unfold AutoScaler.update_cost_tracking
  split_ifs
  · exact emergency_no_start a
  · simp

theorem exceed_of_limit_exceeded (c : CostTracker)
    (h : c.limit_exceeded = true) :
    c.current_daily_cost + estimated_hourly_cost > c.daily_limit ∨
      c.current_monthly_cost + estimated_hourly_cost > c.monthly_limit := by
  unfold CostTracker.limit_exceeded at h
  simp only [Bool.or_eq_true, decide_eq_true_eq] at h
  have hpos : (0 : ℚ) < estimated_hourly_cost := by
    norm_num [estimated_hourly_cost]
  rcases h with h | h
  · left; linarith
  · right; linarith

theorem tick_no_start_of_can_start_false (a : AutoScaler) (now : ℚ)
    (pv pe : String) (h : a.cost_tracker.can_start_instance = false) :
    ∀ x ∈ (a.tick now pv pe).2, x.isStart = false := by
  unfold AutoScaler.tick
  dsimp only
  intro x hx
  simp only [List.mem_append] at hx
  rcases hx with ((hx | hx) | hx) | hx
  · rw [cvs_no_start a now pv h] at hx
    simp at hx
  · rw [ces_no_start _ now pe (by rw [(cvs_frame a now pv).1]; exact h)]
      at hx
    simp at hx
  · exact csd_no_start _ now x hx
  · exact uct_no_start _ x hx

theorem emergency_post (b : AutoScaler) :
    b.emergency_shutdown.1.enabled = false ∧
      pyTruthyStr b.emergency_shutdown.1.runpod.video_pod_id = false ∧
      pyTruthyStr b.emergency_shutdown.1.runpod.eval_pod_id = false := by
  unfold AutoScaler.emergency_shutdown
  dsimp only
  refine ⟨rfl, ?_, ?_⟩
  · rw [stop_other_pod_video]
    exact stop_podOf_falsy b.runpod .video_generation
  · exact stop_podOf_falsy _ .evaluation

theorem monitor_disabled (fuel : Nat) (a : AutoScaler) (env : Nat → TickEnv)
    (h : a.enabled = false) :
    AutoScaler.monitor_and_scale fuel a env = [] := by
  cases fuel <;> simp [AutoScaler.monitor_and_scale, h]

/-- C1 counterexample: even with the system's cost tracker over the daily
limit (`costCexC1`), enqueueing one video task issues a provider start —
the enqueue-triggered `check_scaling_needs` path never consults the cost
tracker, so the claim that no start is ever issued while projected spend
exceeds a limit is false on that path. -/
theorem enqueue_starts_despite_exceeded_budget :
    costCexC1.current_daily_cost + estimated_hourly_cost >
        costCexC1.daily_limit ∧
      ((GPUQueueManager.init RedisState.empty).queue_video_generation
            "abcd" "s1" "1.0" "2026-01-01T00:00:00" "2.0").2.2 =
        [Action.start .video_generation "pod_video_generation_2.0"] := by
  constructor
  · norm_num [costCexC1, estimated_hourly_cost]
  · rfl

/-- C1 amended: only the periodic auto-scaler tick refuses instance starts
under the cost condition — for every scaler state whose projected spend
(current plus estimated hourly rate) exceeds the daily or the monthly
limit, a tick issues no start; the enqueue-triggered scaling check issues
starts without consulting the cost tracker (see the counterexample). -/
theorem tick_refuses_start_when_over_budget (a : AutoScaler) (now : ℚ)
    (pv pe : String)
    (h : a.cost_tracker.current_daily_cost + estimated_hourly_cost >
        a.cost_tracker.daily_limit ∨
      a.cost_tracker.current_monthly_cost + estimated_hourly_cost >
        a.cost_tracker.monthly_limit) :
    ∀ x ∈ (a.tick now pv pe).2, x.isStart = false :=
  tick_no_start_of_can_start_false a now pv pe
    (can_start_false_of_exceed a.cost_tracker h)

/-- Witness for the amended C1 at a concrete over-budget scaler state:
no action in the tick trace is a start. -/
theorem tick_refuses_start_when_over_budget_witness :
    ((AutoScaler.tick
        { AutoScaler.init RedisState.empty with cost_tracker := costCexC1 }
        0 "1" "2").2.all fun x => !x.isStart) = true := by
  have h := tick_refuses_start_when_over_budget
    { AutoScaler.init RedisState.empty with cost_tracker := costCexC1 }
    0 "1" "2"
    (Or.inl (by norm_num [costCexC1, estimated_hourly_cost]))
  rw [List.all_eq_true]
  intro x hx
  simp [h x hx]

/-- C4: on any tick whose cost tracker reports `limit_exceeded`, the tick
ends with the loop disabled and neither class holding an instance, the tick
issues no start, and the loop thereafter performs nothing (no further
starts) for any fuel and environment — i.e. until the flag is externally
re-enabled. -/
theorem limit_exceeded_emergency_shutdown (a : AutoScaler) (now : ℚ)
    (pv pe : String) (h : a.cost_tracker.limit_exceeded = true) :
    (a.tick now pv pe).1.enabled = false ∧
      pyTruthyStr (a.tick now pv pe).1.runpod.video_pod_id = false ∧
      pyTruthyStr (a.tick now pv pe).1.runpod.eval_pod_id = false ∧
      (∀ x ∈ (a.tick now pv pe).2, x.isStart = false) ∧
      (∀ fuel env,
        AutoScaler.monitor_and_scale fuel (a.tick now pv pe).1 env = []) := by
  have hct :
      ((((a.check_video_scaling now pv).1.check_eval_scaling now
          pe).1.check_scale_down now).1).cost_tracker = a.cost_tracker := by
    rw [(csd_frame _ now).1, (ces_frame _ now pe).1, (cvs_frame a now pv).1]
  have hupd :
      ((((a.check_video_scaling now pv).1.check_eval_scaling now
            pe).1.check_scale_down now).1).update_cost_tracking =
        ((((a.check_video_scaling now pv).1.check_eval_scaling now
            pe).1.check_scale_down now).1).emergency_shutdown := by
    unfold AutoScaler.update_cost_tracking
    rw [if_pos (by rw [hct]; exact h)]
  have hfst : (a.tick now pv pe).1 =
      ((((a.check_video_scaling now pv).1.check_eval_scaling now
          pe).1.check_scale_down now).1).update_cost_tracking.1 := rfl
  have hpost := emergency_post
    ((((a.check_video_scaling now pv).1.check_eval_scaling now
        pe).1.check_scale_down now).1)
  refine ⟨?_, ?_, ?_, ?_, ?_⟩
  · rw [hfst, hupd]; exact hpost.1
  · rw [hfst, hupd]; exact hpost.2.1
  · rw [hfst, hupd]; exact hpost.2.2
  · exact tick_no_start_of_can_start_false a now pv pe
      (can_start_false_of_limit_exceeded a.cost_tracker h)
  · intro fuel env
    apply monitor_disabled
    rw [hfst, hupd]
    exact hpost.1

/-- Witness for C4 at a concrete over-limit scaler state. -/
theorem limit_exceeded_emergency_shutdown_witness :
    (AutoScaler.tick
        { AutoScaler.init RedisState.empty with cost_tracker := costCexC1 }
        0 "1" "2").1.enabled = false :=
  (limit_exceeded_emergency_shutdown
    { AutoScaler.init RedisState.empty with cost_tracker := costCexC1 }
    0 "1" "2"
    (by norm_num [CostTracker.limit_exceeded, costCexC1])).1

theorem stopsFor_append (t : TaskType) (l1 l2 : List Action) :
    stopsFor t (l1 ++ l2) = stopsFor t l1 + stopsFor t l2 := by
  unfold stopsFor
  rw [List.filter_append, List.length_append]

theorem video_status_running_of_truthy (m : RunPodManager)
    (h : pyTruthyStr m.video_pod_id = true) :
    m.get_video_server_status = "running" := by
  obtain ⟨s, hs, hne⟩ := pyTruthyStr_eq_true.mp h
  unfold RunPodManager.get_video_server_status
  rw [if_pos h]
  simp [hs, get_pod_status, hne]

theorem stopsFor_nil (t : TaskType) : stopsFor t [] = 0 := rfl

theorem stop_video_trace_count (m : RunPodManager)
    (h : pyTruthyStr m.video_pod_id = true) :
    stopsFor .video_generation
      (m.stop_gpu_server .video_generation).2.2 = 1 := by
  unfold RunPodManager.stop_gpu_server
  rw [if_pos (show pyTruthyStr (m.podOf .video_generation) = true from h)]
  rfl

theorem stop_video_sets_none (m : RunPodManager)
    (h : pyTruthyStr m.video_pod_id = true) :
    (m.stop_gpu_server .video_generation).1.video_pod_id = none := by
  unfold RunPodManager.stop_gpu_server
  rw [if_pos (show pyTruthyStr (m.podOf .video_generation) = true from h)]

theorem stop_eval_no_video_stops (m : RunPodManager) :
    stopsFor .video_generation (m.stop_gpu_server .evaluation).2.2 = 0 := by
  unfold RunPodManager.stop_gpu_server
  split_ifs <;> rfl

theorem start_eval_video_frame (m : RunPodManager) (ts : String) :
    (m.start_gpu_server .evaluation ts).1.video_pod_id = m.video_pod_id := by
  unfold RunPodManager.start_gpu_server
  split_ifs <;> rfl

theorem start_no_stops (t' : TaskType) (m : RunPodManager) (t : TaskType)
    (ts : String) :
    stopsFor t' (m.start_gpu_server t ts).2.2 = 0 := by
  unfold RunPodManager.start_gpu_server
  split_ifs with h
  · rfl
  · cases t <;> rfl

/-- Facts about `check_video_scaling` on a tick with a non-empty video
queue: the activity stamp is refreshed, no video stop is recorded, and the
fields the later phases read are preserved. -/
theorem cvs_nonempty_facts (a : AutoScaler) (now : ℚ) (ts : String)
    (hq : a.redis.video_generation_queue ≠ []) :
    (a.check_video_scaling now ts).1.last_video_activity = some now ∧
      stopsFor .video_generation (a.check_video_scaling now ts).2 = 0 ∧
      (a.check_video_scaling now ts).1.idle_timeout = a.idle_timeout := by
  have hlen : 0 < a.redis.video_generation_queue.length :=
    List.length_pos.mpr hq
  unfold AutoScaler.check_video_scaling
  dsimp only
  rw [if_pos hlen]
  split_ifs <;> refine ⟨rfl, ?_, rfl⟩ <;>
    first
      | exact start_no_stops _ _ _ _
      | rfl

/-- `check_video_scaling` is a no-op when the video queue is empty and the
video server does not report `"stopped"`. -/
theorem cvs_noop (a : AutoScaler) (now : ℚ) (ts : String)
    (hq : a.redis.video_generation_queue = [])
    (hs : a.runpod.get_video_server_status ≠ "stopped") :
    a.check_video_scaling now ts = (a, []) := by
  unfold AutoScaler.check_video_scaling
  dsimp only
  rw [if_neg (show ¬ a.redis.video_generation_queue.length > 0 by
    simp [hq])]
  rw [if_neg (show ¬ (a.redis.video_generation_queue.length ≥
      a.video_scale_up_threshold ∧
      a.runpod.get_video_server_status = "stopped") by
    intro hc
    exact hs hc.2)]

/-- The video-side facts `check_eval_scaling` leaves untouched, and that it
records no video stop. -/
theorem ces_video_frame (a : AutoScaler) (now : ℚ) (ts : String) :
    (a.check_eval_scaling now ts).1.last_video_activity =
        a.last_video_activity ∧
      (a.check_eval_scaling now ts).1.runpod.video_pod_id =
        a.runpod.video_pod_id ∧
      (a.check_eval_scaling now ts).1.redis = a.redis ∧
      (a.check_eval_scaling now ts).1.idle_timeout = a.idle_timeout ∧
      stopsFor .video_generation (a.check_eval_scaling now ts).2 = 0 := by
  unfold AutoScaler.check_eval_scaling
  dsimp only
  split_ifs <;>
    refine ⟨rfl, ?_, rfl, rfl, ?_⟩ <;>
      first
        | exact start_eval_video_frame _ _
        | exact start_no_stops _ _ _ _
        | rfl

/-- `check_scale_down` when the idle video branch fires: one video stop is
recorded and the video activity stamp is cleared. -/
theorem csd_stop_video (b : AutoScaler) (now t0 : ℚ)
    (hl : b.last_video_activity = some t0)
    (hi : b.idle_timeout < now - t0)
    (hq : b.redis.video_generation_queue = [])
    (hp : pyTruthyStr b.runpod.video_pod_id = true) :
    (b.check_scale_down now).1.last_video_activity = none ∧
      stopsFor .video_generation (b.check_scale_down now).2 = 1 ∧
      pyTruthyStr (b.check_scale_down now).1.runpod.video_pod_id = false ∧
      (b.check_scale_down now).1.cost_tracker = b.cost_tracker := by
  have h1 := stop_video_trace_count b.runpod hp
  have h2 := stop_video_sets_none b.runpod hp
  unfold AutoScaler.check_scale_down
  dsimp only
  rw [hl]
  dsimp only
  rw [if_pos hi, if_pos (by simp [hq])]
  dsimp only
  cases hle : b.last_eval_activity <;> dsimp only <;> try split_ifs
  all_goals
    refine ⟨rfl, ?_, ?_, rfl⟩ <;>
      simp [stopsFor_append, stopsFor_nil, h1, h2,
        stop_eval_no_video_stops, stop_other_pod_video, pyTruthyStr]

/-- `check_scale_down` when the video stamp is fresh: the stamp is kept and
no video stop is recorded. -/
theorem csd_keep_video (b : AutoScaler) (now t1 : ℚ)
    (hl : b.last_video_activity = some t1)
    (hni : ¬ b.idle_timeout < now - t1) :
    (b.check_scale_down now).1.last_video_activity = some t1 ∧
      stopsFor .video_generation (b.check_scale_down now).2 = 0 ∧
      (b.check_scale_down now).1.cost_tracker = b.cost_tracker := by
  unfold AutoScaler.check_scale_down
  dsimp only
  rw [hl]
  dsimp only
  rw [if_neg hni]
  dsimp only
  cases hle : b.last_eval_activity <;> dsimp only <;> try split_ifs
  all_goals
    refine ⟨hl, ?_, rfl⟩
  all_goals
    simp [stopsFor_append, stopsFor_nil, stop_eval_no_video_stops]

/-- `update_cost_tracking` never touches the video activity stamp, records
no video stop once the video pod is already clear, and is the identity when
the limit is not exceeded. -/
theorem uct_video_facts (b : AutoScaler) :
    b.update_cost_tracking.1.last_video_activity = b.last_video_activity ∧
      (pyTruthyStr b.runpod.video_pod_id = false →
        stopsFor .video_generation b.update_cost_tracking.2 = 0) ∧
      (b.cost_tracker.limit_exceeded = false →
        b.update_cost_tracking = (b, [])) := by
  unfold AutoScaler.update_cost_tracking AutoScaler.emergency_shutdown
  dsimp only
  split_ifs with h
  · refine ⟨rfl, ?_, by simp [h]⟩
    intro hp
    have h1 : (b.runpod.stop_gpu_server .video_generation) =
        (b.runpod, true, []) := by
      unfold RunPodManager.stop_gpu_server
      rw [if_neg (by simp [RunPodManager.podOf, hp])]
    rw [stopsFor_append, h1]
    simp [stop_eval_no_video_stops, stopsFor_nil]
  · exact ⟨rfl, fun _ => rfl, fun _ => rfl⟩

/-- C8 counterexample: with `last_video_activity` set, the idle timeout
long exceeded, and an empty video queue — but no instance held — the tick
issues no stop at all (the claim demands exactly one): `stop_gpu_server`
merely short-circuits on the absent pod. -/
theorem idle_scale_down_cex :
    scalerCexC8.last_video_activity = some 0 ∧
      scalerCexC8.idle_timeout < (1000 : ℚ) - 0 ∧
      scalerCexC8.redis.video_generation_queue = [] ∧
      ¬ stopsFor .video_generation (scalerCexC8.tick 1000 "1" "2").2 = 1 := by
  refine ⟨rfl, by norm_num [scalerCexC8, AutoScaler.init], rfl, ?_⟩
  have h : (scalerCexC8.tick 1000 "1" "2").2 = [] := by
    norm_num [scalerCexC8, AutoScaler.tick, AutoScaler.check_video_scaling,
      AutoScaler.check_eval_scaling, AutoScaler.check_scale_down,
      AutoScaler.update_cost_tracking, AutoScaler.init, RedisState.empty,
      RunPodManager.init, CostTracker.init, CostTracker.limit_exceeded,
      RunPodManager.get_video_server_status,
      RunPodManager.get_eval_server_status,
      RunPodManager.stop_gpu_server, RunPodManager.podOf, pyTruthyStr]
  rw [h]
  simp [stopsFor_nil]

/-- C8 amended: (1) if the video activity stamp is set and older than the
idle timeout, the video queue is empty, AND a video instance is actually
held, then the tick stops that instance exactly once and clears the stamp;
(2) if the video queue is non-empty on a tick (and the cost limit is not
exceeded, so no emergency stop interferes, with a non-negative idle
timeout as configured), the stamp is refreshed to `now` and no video stop
is issued. -/
theorem idle_scale_down_behavior (a : AutoScaler) (now : ℚ)
    (pv pe : String) :
    (∀ t0, a.last_video_activity = some t0 →
      a.idle_timeout < now - t0 →
      a.redis.video_generation_queue = [] →
      pyTruthyStr a.runpod.video_pod_id = true →
      stopsFor .video_generation (a.tick now pv pe).2 = 1 ∧
        (a.tick now pv pe).1.last_video_activity = none) ∧
    (a.redis.video_generation_queue ≠ [] →
      a.cost_tracker.limit_exceeded = false →
      0 ≤ a.idle_timeout →
      (a.tick now pv pe).1.last_video_activity = some now ∧
        stopsFor .video_generation (a.tick now pv pe).2 = 0) := by
  constructor
  · intro t0 hl hi hq hp
    have hs : a.runpod.get_video_server_status ≠ "stopped" := by
      rw [video_status_running_of_truthy a.runpod hp]
      simp
    have hcvs : a.check_video_scaling now pv = (a, []) :=
      cvs_noop a now pv hq hs
    have hces := ces_video_frame a now pe
    have hcsd := csd_stop_video (a.check_eval_scaling now pe).1 now t0
      (by rw [hces.1]; exact hl)
      (by rw [hces.2.2.2.1]; exact hi)
      (by rw [hces.2.2.1]; exact hq)
      (by rw [hces.2.1]; exact hp)
    have hu := uct_video_facts
      ((a.check_eval_scaling now pe).1.check_scale_down now).1
    unfold AutoScaler.tick
    dsimp only
    rw [hcvs]
    dsimp only
    constructor
    · rw [stopsFor_append, stopsFor_append, stopsFor_append,
        stopsFor_nil, hces.2.2.2.2, hcsd.2.1, hu.2.1 hcsd.2.2.1]
    · rw [hu.1, hcsd.1]
  · intro hq hnl hto
    have hcvs := cvs_nonempty_facts a now pv hq
    have hces := ces_video_frame (a.check_video_scaling now pv).1 now pe
    have hlv : ((a.check_video_scaling now pv).1.check_eval_scaling now
        pe).1.last_video_activity = some now := by
      rw [hces.1, hcvs.1]
    have hit : ((a.check_video_scaling now pv).1.check_eval_scaling now
        pe).1.idle_timeout = a.idle_timeout := by
      rw [hces.2.2.2.1, hcvs.2.2]
    have hcsd := csd_keep_video ((a.check_video_scaling now
        pv).1.check_eval_scaling now pe).1 now now hlv
      (by rw [hit, sub_self]; exact not_lt.mpr hto)
    have hcost : (((a.check_video_scaling now pv).1.check_eval_scaling now
        pe).1.check_scale_down now).1.cost_tracker = a.cost_tracker := by
      rw [hcsd.2.2, (ces_frame _ now pe).1, (cvs_frame a now pv).1]
    have hu := uct_video_facts (((a.check_video_scaling now
        pv).1.check_eval_scaling now pe).1.check_scale_down now).1
    have hid := hu.2.2 (by rw [hcost]; exact hnl)
    unfold AutoScaler.tick
    dsimp only
    constructor
    · rw [hid]
      dsimp only
      rw [hcsd.1]
    · rw [stopsFor_append, stopsFor_append, stopsFor_append,
        hcvs.2.1, hces.2.2.2.2, hcsd.2.1, hid]
      simp [stopsFor_nil]

/-- Witness for the amended C8 at concrete states for both parts. -/
theorem idle_scale_down_behavior_witness :
    (stopsFor .video_generation (scalerWitC8.tick 1000 "1" "2").2 = 1 ∧
      (scalerWitC8.tick 1000 "1" "2").1.last_video_activity = none) ∧
    ((scalerWitC8b.tick 1000 "1" "2").1.last_video_activity = some 1000 ∧
      stopsFor .video_generation (scalerWitC8b.tick 1000 "1" "2").2 = 0) :=
  ⟨(idle_scale_down_behavior scalerWitC8 1000 "1" "2").1 0 rfl
      (by norm_num [scalerWitC8, AutoScaler.init]) rfl rfl,
    (idle_scale_down_behavior scalerWitC8b 1000 "1" "2").2
      (by simp [scalerWitC8b, AutoScaler.init, RedisState.empty])
      (by norm_num [scalerWitC8b, AutoScaler.init, CostTracker.init,
        CostTracker.limit_exceeded])
      (by norm_num [scalerWitC8b, AutoScaler.init])⟩

theorem csn_redis_frame (qm : GPUQueueManager) (t : TaskType)
    (ts : String) : (qm.check_scaling_needs t ts).1.redis = qm.redis := by
  unfold GPUQueueManager.check_scaling_needs
  dsimp only
  split_ifs <;> rfl

/-- C3 amended: the pending scan order is the reverse of enqueue order —
each enqueue `lpush`es its task in front of the existing queue, so
`lrange 0 -1` reports newest-first (LIFO); the recorded `priority` field
(a constant literal per class: `"high"` for video, `"medium"` for
evaluation) is never consulted for ordering. -/
theorem pending_scan_is_lifo (qm : GPUQueueManager)
    (audio video s q ts iso podTs : String) :
    (qm.queue_video_generation audio s ts iso
        podTs).1.redis.video_generation_queue =
      mkVideoTask audio s ts iso :: qm.redis.video_generation_queue ∧
    (qm.queue_evaluation video s q ts iso
        podTs).1.redis.evaluation_queue =
      mkEvalTask video s q ts iso :: qm.redis.evaluation_queue := by
  constructor
  · unfold GPUQueueManager.queue_video_generation
    dsimp only
    rw [csn_redis_frame]
    rfl
  · unfold GPUQueueManager.queue_evaluation
    dsimp only
    rw [csn_redis_frame]
    rfl

/-- C3 counterexample: after enqueueing A then B (equal priority, A with
the earlier `created_at`), the pending scan order reports B before A —
the FIFO tie-break the claim states does not hold, and no priority
ordering is applied. -/
theorem pending_scan_order_cex :
    ((((GPUQueueManager.init RedisState.empty).queue_video_generation "aa"
          "s1" "1" "2026-01-01T00:00:00"
          "p1").1.queue_video_generation "bb" "s2" "2"
          "2026-01-01T00:00:01" "p2").1.redis.video_generation_queue =
        [taskB3, taskA3]) ∧
      taskA3.priority = taskB3.priority ∧
      taskA3.created_at < taskB3.created_at :=
  ⟨rfl, rfl, by rw [String.lt_iff_toList_lt]; decide⟩

/-- C7 counterexample: two distinct enqueue calls (different payloads)
made with the same session id at the same clock timestamp receive the
same task id — ids are not globally unique. -/
theorem duplicate_task_ids_cex :
    ((GPUQueueManager.init RedisState.empty).queue_video_generation "aa"
        "s" "100.5" "iso1" "p1").2.1 =
      (((GPUQueueManager.init RedisState.empty).queue_video_generation
          "aa" "s" "100.5" "iso1"
          "p1").1.queue_video_generation "bb" "s" "100.5" "iso2"
          "p2").2.1 := rfl

/-- C7 amended: a task id embeds only the class prefix, the session (and
question) identifiers, and the rendered clock timestamp; ids of same-class
enqueues with the same identifiers are distinct exactly when their
timestamp renderings differ — equal timestamps collide (see the
counterexample). -/
theorem task_ids_distinct_of_distinct_ts (s q ts1 ts2 : String)
    (h : ts1 ≠ ts2) :
    videoTaskId s ts1 ≠ videoTaskId s ts2 ∧
      evalTaskId s q ts1 ≠ evalTaskId s q ts2 := by
  constructor
  · intro he
    apply h
    have hd := congrArg String.data he
    simp only [videoTaskId, String.data_append] at hd
    have h2 := List.append_cancel_left hd
    exact congrArg String.mk h2
  · intro he
    apply h
    have hd := congrArg String.data he
    simp only [evalTaskId, String.data_append] at hd
    have h2 := List.append_cancel_left hd
    exact congrArg String.mk h2

/-- Witness for the amended C7 at concrete distinct timestamps. -/
theorem task_ids_distinct_of_distinct_ts_witness :
    videoTaskId "s" "1" ≠ videoTaskId "s" "2" ∧
      evalTaskId "s" "q" "1" ≠ evalTaskId "s" "q" "2" :=
  task_ids_distinct_of_distinct_ts "s" "q" "1" "2" (by decide)

/-- C5 amended: `mark_task_completed` records the terminal state under
`completed_{task_id}` with a 24-hour (86400 s) expiry but leaves both
pending lists untouched; a status lookup before the expiry returns the
completed record (the completed store is consulted first), and a lookup at
or after the expiry falls back to scanning the unchanged pending lists —
it reports not-found only when the task sits in neither. -/
theorem mark_completed_behavior (redis : RedisState) (now t : ℚ)
    (tid res iso : String) :
    (GPUQueueManager.mark_task_completed redis now tid res
        iso).video_generation_queue = redis.video_generation_queue ∧
      (GPUQueueManager.mark_task_completed redis now tid res
        iso).evaluation_queue = redis.evaluation_queue ∧
      (t < now + 86400 →
        GPUQueueManager.get_task_status
            (GPUQueueManager.mark_task_completed redis now tid res iso) t
            tid =
          .completedRec ⟨tid, "completed", res, iso⟩) ∧
      (now + 86400 ≤ t →
        GPUQueueManager.get_task_status
            (GPUQueueManager.mark_task_completed redis now tid res iso) t
            tid =
          match (redis.video_generation_queue ++
              redis.evaluation_queue).find?
              (fun td => td.task_id = tid) with
          | some td => .pendingRec td
          | none => .notFound) := by
  refine ⟨rfl, rfl, ?_, ?_⟩
  · intro ht
    unfold GPUQueueManager.get_task_status RedisState.get
      GPUQueueManager.mark_task_completed RedisState.setex
    dsimp only
    rw [List.find?_cons_of_pos]
    · rfl
    · simp [ht]
  · intro ht
    have hall : ∀ x ∈ redis.completed.filter
        (fun e => decide (e.1 ≠ ("completed_" ++ tid))),
        ¬ (fun e => decide (e.1 = ("completed_" ++ tid) ∧ t < e.2.2)) x
          = true := by
      intro x hx
      have hxk := (List.mem_filter.mp hx).2
      simp only [decide_eq_true_eq] at hxk
      simp [hxk]
    unfold GPUQueueManager.get_task_status RedisState.get
      GPUQueueManager.mark_task_completed RedisState.setex
    dsimp only
    rw [List.find?_cons_of_neg]
    · rw [List.find?_eq_none.mpr hall]
      rfl
    · simp only [decide_eq_true_eq, not_and]
      exact fun _ => not_lt.mpr ht

/-- Witness for the amended C5: one completed record, looked up before and
after its expiry. -/
theorem mark_completed_behavior_witness :
    GPUQueueManager.get_task_status
        (GPUQueueManager.mark_task_completed RedisState.empty 0 "t1" "r"
          "iso") 100 "t1" =
      .completedRec ⟨"t1", "completed", "r", "iso"⟩ ∧
      GPUQueueManager.get_task_status
        (GPUQueueManager.mark_task_completed RedisState.empty 0 "t1" "r"
          "iso") 90000 "t1" = .notFound := by
  constructor
  · exact (mark_completed_behavior RedisState.empty 0 100 "t1" "r"
      "iso").2.2.1 (by norm_num)
  · rw [(mark_completed_behavior RedisState.empty 0 90000 "t1" "r"
      "iso").2.2.2 (by norm_num)]
    rfl

/-- C5 counterexample: marking the pending task completed does NOT remove
it from the pending structures, and after the 24-hour TTL the status
lookup returns the stale pending record rather than not-found. -/
theorem complete_retention_cex :
    redisCex5'.video_generation_queue ≠ [] ∧
      GPUQueueManager.get_task_status redisCex5' 90000 "video_s1_1" ≠
        TaskStatusResult.notFound := by
  constructor
  · decide
  · have hg : RedisState.get redisCex5' 90000
        ("completed_" ++ "video_s1_1") = none := by
      unfold redisCex5' GPUQueueManager.mark_task_completed RedisState.setex
        RedisState.get
      dsimp only
      rw [List.find?_cons_of_neg]
      · rfl
      · simp only [decide_eq_true_eq, not_and]
        intro _
        norm_num
    unfold GPUQueueManager.get_task_status
    rw [hg]
    decide

/-- C2 (code bug): every call to the public enqueue entry point with an
initialized manager fails with `AttributeError` — `GPUQueueManager`
defines no `add_task` method — instead of returning a task id without
raising. -/
theorem queue_gpu_task_always_raises (task_type : String) (user_id : Nat)
    (input_file_path : String) (parameters : List (String × String))
    (priority : Nat) :
    queue_gpu_task true task_type user_id input_file_path parameters
        priority =
      .error (.attributeError
        "GPUQueueManager object has no attribute add_task") := rfl

/-- C10: both dispatch calls are total functions of the outcome (no
exception escapes the dispatch boundary) and always return a structured
result carrying a success flag; on every failure outcome — non-200 status
or raised exception — an error description is present, and on success the
result payload is present. -/
theorem dispatch_structured_errors (o : HttpOutcome) :
    ((generate_video o).success = false →
      (generate_video o).error.isSome = true) ∧
      ((generate_video o).success = true →
        (generate_video o).result.isSome = true) ∧
      ((evaluate_interview o).success = false →
        (evaluate_interview o).error.isSome = true) ∧
      ((evaluate_interview o).success = true →
        (evaluate_interview o).result.isSome = true) := by
  cases o <;> simp [generate_video, evaluate_interview]

/-- Witness for C10 at a concrete failure and a concrete success. -/
theorem dispatch_structured_errors_witness :
    (generate_video (.exc "connection refused")).error.isSome = true ∧
      (generate_video (.ok "r")).result.isSome = true ∧
      (evaluate_interview (.exc "connection refused")).error.isSome
        = true ∧
      (evaluate_interview (.ok "r")).result.isSome = true :=
  ⟨(dispatch_structured_errors (.exc "connection refused")).1 rfl,
    (dispatch_structured_errors (.ok "r")).2.1 rfl,
    (dispatch_structured_errors (.exc "connection refused")).2.2.1 rfl,
    (dispatch_structured_errors (.ok "r")).2.2.2 rfl⟩

/-- C6: for every cost-tracker state — hence after any sequence of usage
recordings — `can_start_instance` is `true` only when the projected spend
(current spend plus the estimated hourly rate) stays within both the daily
and the monthly limit; contrapositively it returns `false` whenever either
projected total exceeds its limit. -/
theorem can_start_instance_within_limits (c : CostTracker)
    (h : c.can_start_instance = true) :
    c.current_daily_cost + estimated_hourly_cost ≤ c.daily_limit ∧
      c.current_monthly_cost + estimated_hourly_cost ≤ c.monthly_limit := by
  unfold CostTracker.can_start_instance at h
  by_cases hd : c.current_daily_cost + estimated_hourly_cost > c.daily_limit
  · simp [hd] at h
  · by_cases hm : c.current_monthly_cost + estimated_hourly_cost > c.monthly_limit
    · simp [hd, hm] at h
    · exact ⟨le_of_not_lt hd, le_of_not_lt hm⟩

/-- Witness for C6 at the freshly initialised tracker. -/
theorem can_start_instance_within_limits_witness :
    CostTracker.init.current_daily_cost + estimated_hourly_cost ≤
        CostTracker.init.daily_limit ∧
      CostTracker.init.current_monthly_cost + estimated_hourly_cost ≤
        CostTracker.init.monthly_limit :=
  can_start_instance_within_limits CostTracker.init (by
    unfold CostTracker.can_start_instance CostTracker.init estimated_hourly_cost
    norm_num)

end Borderflo
